import Mathlib

/-!
# Verification of the `Bullet` simulator adapter (`pyrobolearn/simulators/bullet.py`)

This file gives a shallow embedding of the parts of the `Bullet` adapter class
that the specification's claims are about, and proves (or refutes) those claims.

Modelling conventions:
* Python floats are modelled as `ℚ` (exact arithmetic; the claims are about
  data marshalling, not rounding), Python ints as `ℤ`, numpy arrays and Python
  lists of floats both as `List ℚ` (both are ordered sequences of components;
  the adapter's `np.array`/`tolist` conversions are the identity on components).
* Every call that the adapter issues into the engine client (`self.sim.X(...)`)
  is recorded as an `EngineCall` value; an adapter method is embedded as a
  function returning its (converted) result together with the ordered list of
  engine calls its body performs.  The engine's responses are left abstract in
  an `Engine` structure of response functions, so theorems quantify over every
  possible engine behaviour.
* A Python keyword-argument dictionary built by repeated
  `if p is not None: kwargs[name] = v` statements is embedded as
  `buildKwargs` applied to the ordered list of `(name, optional value)` pairs.
* A Python function that can `raise` is embedded with result type `Except`;
  functions whose bodies contain no `raise` statement always return `.ok`.
-/

/-- A primitive value forwarded to the engine as a keyword argument. -/
inductive EVal where
  | num (x : ℚ)
  | int (n : ℤ)
  | vec (xs : List ℚ)
  | mat (xss : List (List ℚ))
  | intList (ns : List ℤ)
  | str (s : String)
  | null
  deriving DecidableEq, Repr

/-- A Python value that may be either a scalar float or a list of floats
(used for `velocities`, `max_force`, ... which accept both). -/
inductive PyVal where
  | num (x : ℚ)
  | list (xs : List ℚ)
  deriving DecidableEq, Repr

/-- A `joint_ids` / `link_ids` argument: either a single integer id or a list
of ids (the adapter branches on `isinstance(joint_ids, int)`). -/
inductive Ids where
  | int (i : ℤ)
  | list (is : List ℤ)
  deriving DecidableEq, Repr

/-- Dual-arity result: a single structured value or one structured value per
requested identifier. -/
inductive Arity (α : Type) where
  | one (a : α)
  | many (as : List α)
  deriving DecidableEq, Repr

/-- The argument of `Bullet.load`: Python's `isinstance` dispatch distinguishes
`int`, `str`, and everything else. -/
inductive PyStateArg where
  | int (i : ℤ)
  | str (s : String)
  | other
  deriving DecidableEq, Repr

/-- A quaternion in scalar-first order, as the structured
`np.quaternion (w, x, y, z)` objects accepted by the adapter. -/
structure PyQuaternion where
  w : ℚ
  x : ℚ
  y : ℚ
  z : ℚ
  deriving DecidableEq, Repr

/-- An `orientation` argument: absent, a raw array `[x, y, z, w]`, or a
structured scalar-first quaternion (the adapter branches on `isinstance`). -/
inductive OrnArg where
  | absent
  | arr (l : List ℚ)
  | quat (q : PyQuaternion)
  deriving DecidableEq, Repr

/-- A `position` argument: absent or an array (`ravel().tolist()` is the
identity on the component list). -/
inductive PosArg where
  | absent
  | arr (l : List ℚ)
  deriving DecidableEq, Repr

/-- The tuple returned by the engine's `getLinkState`; only the indices the
adapter reads are modelled (0: world position, 1: world orientation,
6: world linear velocity, 7: world angular velocity). -/
structure LinkState where
  worldPos : List ℚ
  worldOrn : List ℚ
  worldLinVel : List ℚ
  worldAngVel : List ℚ
  deriving DecidableEq, Repr

/-- The tuple returned by the engine's `getJointState`; index 0 is the joint
position, index 1 the joint velocity. -/
structure JointState where
  position : ℚ
  velocity : ℚ
  deriving DecidableEq, Repr

/-- The tuple returned by the engine's `getDebugVisualizerCamera`. -/
structure DebugCamera where
  width : ℤ
  height : ℤ
  view : List ℚ
  proj : List ℚ
  upVec : List ℚ
  forwardVec : List ℚ
  horizontal : List ℚ
  vertical : List ℚ
  yaw : ℚ
  pitch : ℚ
  dist : ℚ
  target : List ℚ
  deriving DecidableEq, Repr

/-- One call issued by the adapter into the engine client, with the exact
arguments forwarded.  An `Option` argument models a keyword argument that may
be absent from the call (`none` = not passed at all); note the difference with
explicitly passing Python's `None` as a value. -/
inductive EngineCall where
  | setPhysicsEngineParameter (kwargs : List (String × EVal))
  | startStateLogging (loggingType : ℤ) (filename : String) (kwargs : List (String × EVal))
  | changeDynamics (bodyId linkId : ℤ) (kwargs : List (String × EVal))
  | changeVisualShape (objectId linkId : ℤ) (kwargs : List (String × EVal))
  | changeConstraint (constraintId : ℤ) (kwargs : List (String × EVal))
  | restoreStateId (stateId : ℤ)
  | restoreStateFile (fileName : String)
  | getBasePositionAndOrientation (bodyId : ℤ)
  | resetBasePositionAndOrientation (bodyId : ℤ) (position orn : List ℚ)
  | getBaseVelocity (bodyId : ℤ)
  | getLinkState (bodyId linkId : ℤ) (computeLinkVelocity : Bool)
  | getJointState (bodyId jointId : ℤ)
  | getJointStates (bodyId : ℤ) (jointIds : List ℤ)
  | setJointMotorControl2 (bodyId jointId : ℤ) (controlMode : ℤ)
      (targetVelocity : PyVal) (force : Option (Option PyVal))
  | setJointMotorControlArray (bodyId : ℤ) (jointIds : Ids) (controlMode : ℤ)
      (targetVelocities : PyVal) (forces : Option (Option PyVal))
  | createVisualShape (shapeType : ℤ) (kwargs : List (String × EVal))
  | createCollisionShape (shapeType : ℤ) (kwargs : List (String × EVal))
  | computeViewMatrix (eyePosition targetPosition upVector : List ℚ)
  | computeViewMatrixFromYawPitchRoll (targetPosition : List ℚ)
      (distance yaw pitch roll : ℚ) (upAxisIndex : ℤ)
  | computeProjectionMatrix (left right bottom top near far : ℚ)
  | computeProjectionMatrixFOV (fov aspect near far : ℚ)
  | getDebugVisualizerCamera
  | resetDebugVisualizerCamera (cameraDistance cameraYaw cameraPitch : ℚ)
      (cameraTargetPosition : List ℚ)
  | loadURDF (fileName : String) (position orn : Option (List ℚ))
      (useMaximalCoordinates useFixedBase flags : ℤ) (globalScaling : ℚ)
  | createMultiBody (baseMass : ℚ) (baseCollisionShapeIndex baseVisualShapeIndex : ℤ)
      (basePosition : Option (List ℚ)) (baseOrn : Option (List ℚ))
  deriving DecidableEq, Repr

/-- The engine client's response behaviour, left abstract: one response
function per engine method whose return value the adapter actually uses. -/
structure Engine where
  getBasePositionAndOrientation : ℤ → List ℚ × List ℚ
  getBaseVelocity : ℤ → List ℚ × List ℚ
  getLinkState : ℤ → ℤ → LinkState
  getJointState : ℤ → ℤ → JointState
  createVisualShape : ℤ → List (String × EVal) → ℤ
  createCollisionShape : ℤ → List (String × EVal) → ℤ
  computeViewMatrix : List ℚ → List ℚ → List ℚ → List ℚ
  computeViewMatrixFromYawPitchRoll : List ℚ → ℚ → ℚ → ℚ → ℚ → ℤ → List ℚ
  computeProjectionMatrix : ℚ → ℚ → ℚ → ℚ → ℚ → ℚ → List ℚ
  computeProjectionMatrixFOV : ℚ → ℚ → ℚ → ℚ → List ℚ
  getDebugVisualizerCamera : DebugCamera
  startStateLogging : ℤ → String → List (String × EVal) → ℤ
  loadURDF : String → Option (List ℚ) → Option (List ℚ) → ℤ → ℤ → ℤ → ℚ → ℤ
  createMultiBody : ℚ → ℤ → ℤ → Option (List ℚ) → Option (List ℚ) → ℤ

/-- pybullet's `getJointStates` is the batch form of `getJointState`: it
returns one `getJointState` tuple per requested joint id, in order.  This is
the wrapped engine's documented contract, modelled here. -/
def Engine.getJointStates (e : Engine) (bodyId : ℤ) (jointIds : List ℤ) :
    List JointState :=
  jointIds.map (e.getJointState bodyId)

/-- A concrete engine instance with trivial responses, used to instantiate
universally quantified theorems at a concrete input. -/
def trivEngine : Engine where
  getBasePositionAndOrientation := fun _ => ([0, 0, 0], [0, 0, 0, 1])
  getBaseVelocity := fun _ => ([0, 0, 0], [0, 0, 0])
  getLinkState := fun _ _ => ⟨[1, 2, 3], [0, 0, 0, 1], [0, 0, 0], [0, 0, 0]⟩
  getJointState := fun _ _ => ⟨0, 0⟩
  createVisualShape := fun _ _ => 4
  createCollisionShape := fun _ _ => 5
  computeViewMatrix := fun _ _ _ => List.replicate 16 0
  computeViewMatrixFromYawPitchRoll := fun _ _ _ _ _ _ => List.replicate 16 0
  computeProjectionMatrix := fun _ _ _ _ _ _ => List.replicate 16 0
  computeProjectionMatrixFOV := fun _ _ _ _ => List.replicate 16 0
  getDebugVisualizerCamera :=
    ⟨1024, 768, List.replicate 16 0, List.replicate 16 0, [0, 0, 1], [1, 0, 0],
      [0, 1, 0], [0, 0, 1], 30, 45, 3, [0, 0, 0]⟩
  startStateLogging := fun _ _ _ => 7
  loadURDF := fun _ _ _ _ _ _ _ => 0
  createMultiBody := fun _ _ _ _ _ => 0

/-- Embeds a sequence of Python statements
`if p₁ is not None: kwargs[n₁] = v₁; ...; if pₖ is not None: kwargs[nₖ] = vₖ`:
the resulting keyword-argument list keeps, in order, exactly the pairs whose
optional value is present. -/
def buildKwargs : List (String × Option EVal) → List (String × EVal)
  | [] => []
  | (_, none) :: rest => buildKwargs rest
  | (n, some v) :: rest => (n, v) :: buildKwargs rest

/-- A key occurs in the built keyword-argument list iff it occurs in the
source list with a present value. -/
theorem mem_keys_buildKwargs (l : List (String × Option EVal)) (n : String) :
    n ∈ (buildKwargs l).map Prod.fst ↔ ∃ v, (n, some v) ∈ l := by
  induction l with
  | nil => simp [buildKwargs]
  | cons hd tl ih =>
    obtain ⟨m, o⟩ := hd
    cases o with
    | none =>
      simp only [buildKwargs, ih, List.mem_cons, Prod.mk.injEq]
      constructor
      · rintro ⟨v, hv⟩; exact ⟨v, Or.inr hv⟩
      · rintro ⟨v, hv | hv⟩
        · exact absurd hv.2 (by simp)
        · exact ⟨v, hv⟩
    | some v =>
      simp only [buildKwargs, List.map_cons, List.mem_cons, ih, Prod.mk.injEq]
      constructor
      · rintro (rfl | ⟨w, hw⟩)
        · exact ⟨v, Or.inl ⟨rfl, rfl⟩⟩
        · exact ⟨w, Or.inr hw⟩
      · rintro ⟨w, ⟨rfl, _⟩ | hw⟩
        · exact Or.inl rfl
        · exact Or.inr ⟨w, hw⟩

/-! ## Structured setter operations (C1)

Each setter builds its keyword-argument dictionary with one
`if p is not None: kwargs[engineName] = p` statement per optional parameter,
then issues a single engine call with those keyword arguments.  The optional
parameters are gathered in a structure, one `Option` field per parameter, in
source order. -/

/-- Optional parameters of `Bullet.set_physics_properties`. -/
structure PhysicsParams where
  time_step : Option ℚ := none
  num_solver_iterations : Option ℤ := none
  use_split_impulse : Option ℤ := none
  split_impulse_penetration_threshold : Option ℚ := none
  num_sub_steps : Option ℤ := none
  collision_filter_mode : Option ℤ := none
  contact_breaking_threshold : Option ℚ := none
  max_num_cmd_per_1ms : Option ℤ := none
  enable_file_caching : Option ℤ := none
  restitution_velocity_threshold : Option ℚ := none
  erp : Option ℚ := none
  contact_erp : Option ℚ := none
  friction_erp : Option ℚ := none
  enable_cone_friction : Option Bool := none
  deterministic_overlapping_pairs : Option Bool := none
  solver_residual_threshold : Option ℚ := none
  deriving DecidableEq, Repr

/-- Python's `int(b)` on a boolean. -/
def pyIntOfBool (b : Bool) : EVal := .int (if b then 1 else 0)

/-- The keyword arguments `Bullet.set_physics_properties` forwards to
`setPhysicsEngineParameter` (bullet.py lines 254-286). -/
def set_physics_properties_kwargs (p : PhysicsParams) : List (String × EVal) :=
  buildKwargs
    [("fixedTimeStep", p.time_step.map .num),
     ("numSolverIterations", p.num_solver_iterations.map .int),
     ("useSplitImpulse", p.use_split_impulse.map .int),
     ("splitImpulsePenetrationThreshold", p.split_impulse_penetration_threshold.map .num),
     ("numSubSteps", p.num_sub_steps.map .int),
     ("collisionFilterMode", p.collision_filter_mode.map .int),
     ("contactBreakingThreshold", p.contact_breaking_threshold.map .num),
     ("maxNumCmdPer1ms", p.max_num_cmd_per_1ms.map .int),
     ("enableFileCaching", p.enable_file_caching.map .int),
     ("restitutionVelocityThreshold", p.restitution_velocity_threshold.map .num),
     ("erp", p.erp.map .num),
     ("contactERP", p.contact_erp.map .num),
     ("frictionERP", p.friction_erp.map .num),
     ("enableConeFriction", p.enable_cone_friction.map pyIntOfBool),
     ("deterministicOverlappingPairs", p.deterministic_overlapping_pairs.map pyIntOfBool),
     ("solverResidualThreshold", p.solver_residual_threshold.map .num)]

/-- `Bullet.set_physics_properties`: builds the kwargs then issues the single
engine call `setPhysicsEngineParameter(**kwargs)` (bullet.py line 288). -/
def set_physics_properties (p : PhysicsParams) : List EngineCall :=
  [.setPhysicsEngineParameter (set_physics_properties_kwargs p)]

/-- Optional parameters of `Bullet.change_dynamics`. -/
structure DynamicsParams where
  mass : Option ℚ := none
  lateral_friction : Option ℚ := none
  spinning_friction : Option ℚ := none
  rolling_friction : Option ℚ := none
  restitution : Option ℚ := none
  linear_damping : Option ℚ := none
  angular_damping : Option ℚ := none
  contact_stiffness : Option ℚ := none
  contact_damping : Option ℚ := none
  friction_anchor : Option ℤ := none
  local_inertia_diagonal : Option (List ℚ) := none
  joint_damping : Option ℚ := none
  deriving DecidableEq, Repr

/-- The keyword arguments `Bullet.change_dynamics` forwards to
`changeDynamics` (bullet.py lines 2773-2797). -/
def change_dynamics_kwargs (p : DynamicsParams) : List (String × EVal) :=
  buildKwargs
    [("mass", p.mass.map .num),
     ("lateralFriction", p.lateral_friction.map .num),
     ("spinningFriction", p.spinning_friction.map .num),
     ("rollingFriction", p.rolling_friction.map .num),
     ("restitution", p.restitution.map .num),
     ("linearDamping", p.linear_damping.map .num),
     ("angularDamping", p.angular_damping.map .num),
     ("contactStiffness", p.contact_stiffness.map .num),
     ("contactDamping", p.contact_damping.map .num),
     ("frictionAnchor", p.friction_anchor.map .int),
     ("localInertiaDiagonal", p.local_inertia_diagonal.map .vec),
     ("jointDamping", p.joint_damping.map .num)]

/-- `Bullet.change_dynamics`: single engine call
`changeDynamics(body_id, link_id, **kwargs)` (bullet.py line 2799). -/
def change_dynamics (body_id link_id : ℤ) (p : DynamicsParams) : List EngineCall :=
  [.changeDynamics body_id link_id (change_dynamics_kwargs p)]

/-- Optional parameters of `Bullet.change_visual_shape`. -/
structure VisualShapeParams where
  shape_id : Option ℤ := none
  texture_id : Option ℤ := none
  rgba_color : Option (List ℚ) := none
  specular_color : Option (List ℚ) := none
  deriving DecidableEq, Repr

/-- The keyword arguments `Bullet.change_visual_shape` forwards to
`changeVisualShape` (bullet.py lines 1997-2005). -/
def change_visual_shape_kwargs (p : VisualShapeParams) : List (String × EVal) :=
  buildKwargs
    [("shapeIndex", p.shape_id.map .int),
     ("textureUniqueId", p.texture_id.map .int),
     ("rgbaColor", p.rgba_color.map .vec),
     ("specularColor", p.specular_color.map .vec)]

/-- `Bullet.change_visual_shape`: single engine call
`changeVisualShape(object_id, link_id, **kwargs)` (bullet.py line 2006). -/
def change_visual_shape (object_id link_id : ℤ) (p : VisualShapeParams) :
    List EngineCall :=
  [.changeVisualShape object_id link_id (change_visual_shape_kwargs p)]

/-- Optional parameters of `Bullet.change_constraint`. -/
structure ConstraintParams where
  child_joint_pivot : Option (List ℚ) := none
  child_frame_orn : Option (List ℚ) := none
  max_force : Option ℚ := none
  gear_ratio_value : Option ℚ := none
  gear_auxiliary_link : Option ℤ := none
  relative_position_target : Option ℚ := none
  erp : Option ℚ := none
  deriving DecidableEq, Repr

/-- The keyword arguments `Bullet.change_constraint` forwards to
`changeConstraint` (bullet.py lines 716-730). -/
def change_constraint_kwargs (p : ConstraintParams) : List (String × EVal) :=
  buildKwargs
    [("jointChildPivot", p.child_joint_pivot.map .vec),
     ("jointChildFrameOrientation", p.child_frame_orn.map .vec),
     ("maxForce", p.max_force.map .num),
     ("gearRatio", p.gear_ratio_value.map .num),
     ("gearAuxLink", p.gear_auxiliary_link.map .int),
     ("relativePositionTarget", p.relative_position_target.map .num),
     ("erp", p.erp.map .num)]

/-- `Bullet.change_constraint`: single engine call
`changeConstraint(constraint_id, **kwargs)` (bullet.py line 732). -/
def change_constraint (constraint_id : ℤ) (p : ConstraintParams) :
    List EngineCall :=
  [.changeConstraint constraint_id (change_constraint_kwargs p)]

/-- Parameters of `Bullet.start_logging` that are forwarded only when not
`None` (they have no defaults in the signature, but the body treats each of
them as optional via an `is not None` presence check). -/
structure LoggingParams where
  object_unique_ids : Option (List ℤ) := none
  max_log_dof : Option ℤ := none
  body_unique_id_A : Option ℤ := none
  body_unique_id_B : Option ℤ := none
  link_index_A : Option ℤ := none
  link_index_B : Option ℤ := none
  device_type_filter : Option ℤ := none
  log_flags : Option ℤ := none
  deriving DecidableEq, Repr

/-- The keyword arguments `Bullet.start_logging` forwards to
`startStateLogging` (bullet.py lines 333-349). -/
def start_logging_kwargs (p : LoggingParams) : List (String × EVal) :=
  buildKwargs
    [("objectUniqueIds", p.object_unique_ids.map .intList),
     ("maxLogDof", p.max_log_dof.map .int),
     ("bodyUniqueIdA", p.body_unique_id_A.map .int),
     ("bodyUniqueIdB", p.body_unique_id_B.map .int),
     ("linkIndexA", p.link_index_A.map .int),
     ("linkIndexB", p.link_index_B.map .int),
     ("deviceTypeFilter", p.device_type_filter.map .int),
     ("logFlags", p.log_flags.map .int)]

/-- `Bullet.start_logging` (bullet.py lines 333-351): issues
`startStateLogging(logging_type, filename, **kwargs)`, whose integer result is
discarded — the Python body has no `return` statement, so the method returns
`None` (modelled as `none : Option ℤ`). -/
def start_logging (e : Engine) (logging_type : ℤ) (filename : String)
    (p : LoggingParams) : Option ℤ × List EngineCall :=
  let _loggerId := e.startStateLogging logging_type filename (start_logging_kwargs p)
  (none, [.startStateLogging logging_type filename (start_logging_kwargs p)])

/-! ## Base state, joint control, and state restore -/

/-- `Bullet.get_base_pose` (bullet.py lines 844-856): one
`getBasePositionAndOrientation` call; `np.array` conversion is the identity on
components. -/
def get_base_pose (e : Engine) (body_id : ℤ) :
    (List ℚ × List ℚ) × List EngineCall :=
  (e.getBasePositionAndOrientation body_id, [.getBasePositionAndOrientation body_id])

/-- `Bullet.get_base_position` (bullet.py line 868): `get_base_pose(...)[0]`. -/
def get_base_position (e : Engine) (body_id : ℤ) : List ℚ × List EngineCall :=
  ((get_base_pose e body_id).1.1, (get_base_pose e body_id).2)

/-- `Bullet.get_base_orientation` (bullet.py line 880): `get_base_pose(...)[1]`. -/
def get_base_orientation (e : Engine) (body_id : ℤ) : List ℚ × List EngineCall :=
  ((get_base_pose e body_id).1.2, (get_base_pose e body_id).2)

/-- `Bullet.get_base_velocity` (bullet.py lines 919-931): one
`getBaseVelocity` call. -/
def get_base_velocity (e : Engine) (body_id : ℤ) :
    (List ℚ × List ℚ) × List EngineCall :=
  (e.getBaseVelocity body_id, [.getBaseVelocity body_id])

/-- `Bullet.get_base_linear_velocity` (bullet.py line 943):
`get_base_velocity(...)[0]`. -/
def get_base_linear_velocity (e : Engine) (body_id : ℤ) :
    List ℚ × List EngineCall :=
  ((get_base_velocity e body_id).1.1, (get_base_velocity e body_id).2)

/-- `Bullet.reset_base_pose` (bullet.py line 895): one
`resetBasePositionAndOrientation` call. -/
def reset_base_pose (body_id : ℤ) (position orn : List ℚ) : List EngineCall :=
  [.resetBasePositionAndOrientation body_id position orn]

/-- `Bullet.reset_base_position` (bullet.py lines 897-906): reads the current
orientation with `get_base_orientation` (one engine call), then resets the
pose with `reset_base_pose` (a second engine call). -/
def reset_base_position (e : Engine) (body_id : ℤ) (position : List ℚ) :
    List EngineCall :=
  (get_base_orientation e body_id).2 ++
    reset_base_pose body_id position (get_base_orientation e body_id).1

/-- pybullet's `VELOCITY_CONTROL` control-mode constant. -/
def VELOCITY_CONTROL : ℤ := 0

/-- `Bullet.set_joint_velocities` (bullet.py lines 1694-1713), embedded with
its exact control flow: the `isinstance(joint_ids, int)` block and the two
`max_force is None` checks have no `else` and no `return`, so the branches
fall through and several engine calls accumulate. -/
def set_joint_velocities (body_id : ℤ) (joint_ids : Ids) (velocities : PyVal)
    (max_force : Option PyVal) : List EngineCall :=
  (match joint_ids with
   | .int j =>
     (if max_force = none then
        [.setJointMotorControl2 body_id j VELOCITY_CONTROL velocities none]
      else []) ++
     [.setJointMotorControl2 body_id j VELOCITY_CONTROL velocities (some max_force)]
   | .list _ => []) ++
  (if max_force = none then
     [.setJointMotorControlArray body_id joint_ids VELOCITY_CONTROL velocities none]
   else []) ++
  [.setJointMotorControlArray body_id joint_ids VELOCITY_CONTROL velocities (some max_force)]

/-- `Bullet.load` (bullet.py lines 386-396): `isinstance` dispatch on the
`state` argument; the body contains no `raise` statement, so every branch
returns normally (`.ok`), and a `state` that is neither `int` nor `str`
matches no branch and issues no engine call. -/
def load : PyStateArg → Except String (List EngineCall)
  | .int i => .ok [.restoreStateId i]
  | .str s => .ok [.restoreStateFile s]
  | .other => .ok []

/-! ## Batch accessors over links and joints -/

/-- The per-link body shared by both branches of
`Bullet.get_link_world_positions` (bullet.py lines 1357-1366): link id `-1`
is answered from `get_base_position`, any other id from
`getLinkState(body_id, link_id)[0]`. -/
def link_world_position_one (e : Engine) (body_id link_id : ℤ) :
    List ℚ × List EngineCall :=
  if link_id = -1 then get_base_position e body_id
  else ((e.getLinkState body_id link_id).worldPos, [.getLinkState body_id link_id false])

/-- `Bullet.get_link_world_positions` (bullet.py lines 1343-1367): an `int`
argument yields a single position, a list yields one position per link id in
input order (the Python loop appends to `positions` in order). -/
def get_link_world_positions (e : Engine) (body_id : ℤ) :
    Ids → Arity (List ℚ) × List EngineCall
  | .int i => ((.one (link_world_position_one e body_id i).1),
               (link_world_position_one e body_id i).2)
  | .list is => ((.many (is.map fun j => (link_world_position_one e body_id j).1)),
                 is.flatMap fun j => (link_world_position_one e body_id j).2)

/-- The per-link body of `Bullet.get_link_world_orientations`
(bullet.py lines 1386-1395). -/
def link_world_orn_one (e : Engine) (body_id link_id : ℤ) :
    List ℚ × List EngineCall :=
  if link_id = -1 then get_base_orientation e body_id
  else ((e.getLinkState body_id link_id).worldOrn, [.getLinkState body_id link_id false])

/-- `Bullet.get_link_world_orientations` (bullet.py lines 1372-1396). -/
def get_link_world_orientations (e : Engine) (body_id : ℤ) :
    Ids → Arity (List ℚ) × List EngineCall
  | .int i => ((.one (link_world_orn_one e body_id i).1),
               (link_world_orn_one e body_id i).2)
  | .list is => ((.many (is.map fun j => (link_world_orn_one e body_id j).1)),
                 is.flatMap fun j => (link_world_orn_one e body_id j).2)

/-- The per-link body of `Bullet.get_link_world_linear_velocities`
(bullet.py lines 1415-1424): link id `-1` is answered from
`get_base_linear_velocity`, any other id from
`getLinkState(body_id, link_id, computeLinkVelocity=1)[6]`. -/
def link_world_lin_vel_one (e : Engine) (body_id link_id : ℤ) :
    List ℚ × List EngineCall :=
  if link_id = -1 then get_base_linear_velocity e body_id
  else ((e.getLinkState body_id link_id).worldLinVel, [.getLinkState body_id link_id true])

/-- `Bullet.get_link_world_linear_velocities` (bullet.py lines 1401-1425). -/
def get_link_world_linear_velocities (e : Engine) (body_id : ℤ) :
    Ids → Arity (List ℚ) × List EngineCall
  | .int i => ((.one (link_world_lin_vel_one e body_id i).1),
               (link_world_lin_vel_one e body_id i).2)
  | .list is => ((.many (is.map fun j => (link_world_lin_vel_one e body_id j).1)),
                 is.flatMap fun j => (link_world_lin_vel_one e body_id j).2)

/-- `Bullet.get_joint_positions` (bullet.py lines 1676-1692): an `int`
argument issues `getJointState(body_id, joint_ids)[0]`, a list issues one
`getJointStates` batch call and extracts `state[0]` of each tuple in order. -/
def get_joint_positions (e : Engine) (body_id : ℤ) :
    Ids → Arity ℚ × List EngineCall
  | .int i => ((.one (e.getJointState body_id i).position), [.getJointState body_id i])
  | .list is => ((.many ((e.getJointStates body_id is).map JointState.position)),
                 [.getJointStates body_id is])

/-! ## Angle unit conversion

`np.rad2deg` multiplies by the constant `180 / π` and `np.deg2rad` divides by
it.  Since `180 / π` is irrational, the embedding keeps the degrees-per-radian
constant as an abstract parameter `c` (nonzero in the source); every theorem
below holds for an arbitrary nonzero `c`, hence in particular for `180 / π`. -/

/-- `np.rad2deg`: multiply by the degrees-per-radian constant `c`. -/
def rad2deg (c x : ℚ) : ℚ := c * x

/-- `np.deg2rad`: divide by the degrees-per-radian constant `c`. -/
def deg2rad (c x : ℚ) : ℚ := x / c

/-! ## Matrix reshaping -/

/-- Entry `(i, j)` of a matrix stored as a list of rows. -/
def entry (m : List (List ℚ)) (i j : Nat) : ℚ := (m.getD i []).getD j 0

/-- `np.array(flat).reshape(4, 4)`: the flat 16-element row-major list as a
4×4 list of rows (the engine always produces exactly 16 elements). -/
def reshape44 (l : List ℚ) : List (List ℚ) :=
  [[l.getD 0 0, l.getD 1 0, l.getD 2 0, l.getD 3 0],
   [l.getD 4 0, l.getD 5 0, l.getD 6 0, l.getD 7 0],
   [l.getD 8 0, l.getD 9 0, l.getD 10 0, l.getD 11 0],
   [l.getD 12 0, l.getD 13 0, l.getD 14 0, l.getD 15 0]]

/-- `.T` on a 4×4 matrix stored as a list of rows. -/
def transpose44 (m : List (List ℚ)) : List (List ℚ) :=
  [[entry m 0 0, entry m 1 0, entry m 2 0, entry m 3 0],
   [entry m 0 1, entry m 1 1, entry m 2 1, entry m 3 1],
   [entry m 0 2, entry m 1 2, entry m 2 2, entry m 3 2],
   [entry m 0 3, entry m 1 3, entry m 2 3, entry m 3 3]]

/-- Transposing twice after a reshape recovers the reshaped matrix. -/
theorem transpose44_transpose44_reshape44 (l : List ℚ) :
    transpose44 (transpose44 (reshape44 l)) = reshape44 l := rfl

/-- `Bullet.compute_view_matrix` (bullet.py lines 2040-2041): one
`computeViewMatrix` call, result reshaped to 4×4 and transposed. -/
def compute_view_matrix (e : Engine) (eye_position target_position up_vector : List ℚ) :
    List (List ℚ) × List EngineCall :=
  (transpose44 (reshape44 (e.computeViewMatrix eye_position target_position up_vector)),
   [.computeViewMatrix eye_position target_position up_vector])

/-- `Bullet.compute_view_matrix_from_ypr` (bullet.py lines 2065-2068):
forwards `rad2deg` of yaw, pitch and roll, then reshapes and transposes. -/
def compute_view_matrix_from_ypr (c : ℚ) (e : Engine) (target_position : List ℚ)
    (distance yaw pitch roll : ℚ) (up_axis_index : ℤ) :
    List (List ℚ) × List EngineCall :=
  (transpose44 (reshape44 (e.computeViewMatrixFromYawPitchRoll target_position distance
      (rad2deg c yaw) (rad2deg c pitch) (rad2deg c roll) up_axis_index)),
   [.computeViewMatrixFromYawPitchRoll target_position distance
      (rad2deg c yaw) (rad2deg c pitch) (rad2deg c roll) up_axis_index])

/-- `Bullet.compute_projection_matrix` (bullet.py lines 2097-2098). -/
def compute_projection_matrix (e : Engine) (left right bottom top near far : ℚ) :
    List (List ℚ) × List EngineCall :=
  (transpose44 (reshape44 (e.computeProjectionMatrix left right bottom top near far)),
   [.computeProjectionMatrix left right bottom top near far])

/-- `Bullet.compute_projection_matrix_fov` (bullet.py lines 2116-2117). -/
def compute_projection_matrix_fov (e : Engine) (fov aspect near far : ℚ) :
    List (List ℚ) × List EngineCall :=
  (transpose44 (reshape44 (e.computeProjectionMatrixFOV fov aspect near far)),
   [.computeProjectionMatrixFOV fov aspect near far])

/-- The converted tuple returned by `Bullet.get_debug_visualizer`. -/
structure VisualizerInfo where
  width : ℤ
  height : ℤ
  view : List (List ℚ)
  proj : List (List ℚ)
  upVec : List ℚ
  forwardVec : List ℚ
  horizontal : List ℚ
  vertical : List ℚ
  yaw : ℚ
  pitch : ℚ
  dist : ℚ
  target : List ℚ
  deriving DecidableEq, Repr

/-- `Bullet.get_debug_visualizer` (bullet.py lines 3294-3328): one
`getDebugVisualizerCamera` call; the view and projection matrices are reshaped
and transposed, and the engine's yaw and pitch (degrees) are converted to
radians with `np.deg2rad`. -/
def get_debug_visualizer (c : ℚ) (e : Engine) : VisualizerInfo × List EngineCall :=
  let cam := e.getDebugVisualizerCamera
  (⟨cam.width, cam.height,
    transpose44 (reshape44 cam.view), transpose44 (reshape44 cam.proj),
    cam.upVec, cam.forwardVec, cam.horizontal, cam.vertical,
    deg2rad c cam.yaw, deg2rad c cam.pitch, cam.dist, cam.target⟩,
   [.getDebugVisualizerCamera])

/-- `Bullet.reset_debug_visualizer` (bullet.py lines 3330-3343): one
`resetDebugVisualizerCamera` call with `np.rad2deg` applied to the yaw and
pitch arguments. -/
def reset_debug_visualizer (c distance yaw pitch : ℚ) (target_position : List ℚ) :
    List EngineCall :=
  [.resetDebugVisualizerCamera distance (rad2deg c yaw) (rad2deg c pitch) target_position]

/-! ## Quaternion order conversion and body loading -/

/-- Modelled from the spec: `pyrobolearn/utils/converter.py`
(`QuaternionListConverter` with `convention=1`, instantiated at bullet.py line
90) is not part of `src/`.  Per the spec (section 4.1 "Orientation convention
normalization" and section 8), `convertFrom` reorders a scalar-first
`(w, x, y, z)` quaternion into the scalar-last `[x, y, z, w]` list expected by
the engine. -/
def convertFrom (q : PyQuaternion) : List ℚ := [q.x, q.y, q.z, q.w]

/-- Modelled from the spec: the reverse conversion of `convertFrom` —
a scalar-last `[x, y, z, w]` engine list back to a scalar-first structured
quaternion (spec section 4.1: "must reorder engine results back to
scalar-first order"). -/
def convertTo (l : List ℚ) : PyQuaternion :=
  ⟨l.getD 3 0, l.getD 0 0, l.getD 1 0, l.getD 2 0⟩

/-- The position marshalling of `Bullet.load_urdf` (bullet.py lines 489-491):
an `np.ndarray` is flattened to a list (identity on components). -/
def marshal_position : PosArg → Option (List ℚ)
  | .absent => none
  | .arr l => some l

/-- The orientation marshalling of `Bullet.load_urdf` (bullet.py lines
492-496) and `Bullet.create_body` (bullet.py lines 596-599): an `np.ndarray`
is flattened to a list, a structured scalar-first quaternion is reordered to
scalar-last with `quat_conv.convertFrom`. -/
def marshal_orn : OrnArg → Option (List ℚ)
  | .absent => none
  | .arr l => some l
  | .quat q => some (convertFrom q)

/-- `Bullet.load_urdf` (bullet.py lines 443-499): marshals position and
orientation, then issues one `loadURDF` call. -/
def load_urdf (e : Engine) (filename : String) (position : PosArg) (orn : OrnArg)
    (use_maximal_coordinates use_fixed_base flags : ℤ) (scale : ℚ) :
    ℤ × List EngineCall :=
  (e.loadURDF filename (marshal_position position) (marshal_orn orn)
     use_maximal_coordinates use_fixed_base flags scale,
   [.loadURDF filename (marshal_position position) (marshal_orn orn)
      use_maximal_coordinates use_fixed_base flags scale])

/-- `Bullet.create_body` (bullet.py lines 579-602): marshals position and
orientation the same way, then issues one `createMultiBody` call. -/
def create_body (e : Engine) (visual_shape_id collision_shape_id : ℤ) (mass : ℚ)
    (position : PosArg) (orn : OrnArg) : ℤ × List EngineCall :=
  (e.createMultiBody mass collision_shape_id visual_shape_id
     (marshal_position position) (marshal_orn orn),
   [.createMultiBody mass collision_shape_id visual_shape_id
      (marshal_position position) (marshal_orn orn)])

/-! ## Shape creation (geometry-kind validation) -/

/-- pybullet geometry-kind constants (as documented at bullet.py lines
1898-1899 and 2446-2447). -/
def GEOM_SPHERE : ℤ := 2

/-- pybullet `GEOM_BOX`. -/
def GEOM_BOX : ℤ := 3

/-- pybullet `GEOM_CYLINDER`. -/
def GEOM_CYLINDER : ℤ := 4

/-- pybullet `GEOM_MESH`. -/
def GEOM_MESH : ℤ := 5

/-- pybullet `GEOM_PLANE`. -/
def GEOM_PLANE : ℤ := 6

/-- pybullet `GEOM_CAPSULE`. -/
def GEOM_CAPSULE : ℤ := 7

/-- Python's passing of a possibly-`None` string value as a keyword argument
(`fileName=filename` at bullet.py line 2480 passes `None` through). -/
def strOrNull : Option String → EVal
  | some s => .str s
  | none => .null

/-- Arguments of `Bullet.create_visual_shape` other than `shape_type`
(defaults as in the Python signature, bullet.py lines 1890-1893). -/
structure VisualShapeArgs where
  radius : ℚ := 1 / 2
  half_extents : List ℚ := [1, 1, 1]
  length : ℚ := 1
  filename : Option String := none
  mesh_scale : List ℚ := [1, 1, 1]
  plane_normal : List ℚ := [0, 0, 1]
  flags : ℤ := -1
  rgba_color : Option (List ℚ) := none
  specular_color : Option (List ℚ) := none
  visual_frame_position : Option (List ℚ) := none
  vertices : Option (List (List ℚ)) := none
  indices : Option (List ℤ) := none
  uvs : Option (List (List ℚ)) := none
  normals : Option (List (List ℚ)) := none
  visual_frame_orn : Option (List ℚ) := none
  deriving DecidableEq, Repr

/-- The base keyword arguments of `Bullet.create_visual_shape`
(bullet.py lines 1925-1933). -/
def create_visual_shape_base_kwargs (a : VisualShapeArgs) : List (String × EVal) :=
  buildKwargs
    [("rgbaColor", a.rgba_color.map .vec),
     ("specularColor", a.specular_color.map .vec),
     ("visualFramePosition", a.visual_frame_position.map .vec),
     ("visualFrameOrientation", a.visual_frame_orn.map .vec)]

/-- `Bullet.create_visual_shape` (bullet.py lines 1890-1957): dispatches on
`shape_type`; each recognized geometry kind issues exactly one
`createVisualShape` engine call, any other value raises
`ValueError("Unknown visual shape type.")` locally. -/
def create_visual_shape (e : Engine) (shape_type : ℤ) (a : VisualShapeArgs) :
    Except String (ℤ × List EngineCall) :=
  let kwargs := create_visual_shape_base_kwargs a
  if shape_type = GEOM_SPHERE then
    let kw := ("radius", EVal.num a.radius) :: kwargs
    .ok (e.createVisualShape shape_type kw, [.createVisualShape shape_type kw])
  else if shape_type = GEOM_BOX then
    let kw := ("halfExtents", EVal.vec a.half_extents) :: kwargs
    .ok (e.createVisualShape shape_type kw, [.createVisualShape shape_type kw])
  else if shape_type = GEOM_CAPSULE ∨ shape_type = GEOM_CYLINDER then
    let kw := ("radius", EVal.num a.radius) :: ("length", EVal.num a.length) :: kwargs
    .ok (e.createVisualShape shape_type kw, [.createVisualShape shape_type kw])
  else if shape_type = GEOM_PLANE then
    let kw := ("planeNormal", EVal.vec a.plane_normal) :: kwargs
    .ok (e.createVisualShape shape_type kw, [.createVisualShape shape_type kw])
  else if shape_type = GEOM_MESH then
    let kw := kwargs ++
      (match a.filename with
       | some f => [("fileName", EVal.str f)]
       | none => buildKwargs
           [("vertices", a.vertices.map .mat),
            ("indices", a.indices.map .intList),
            ("uvs", a.uvs.map .mat),
            ("normals", a.normals.map .mat)])
    .ok (e.createVisualShape shape_type kw, [.createVisualShape shape_type kw])
  else
    .error "Unknown visual shape type."

/-- Arguments of `Bullet.create_collision_shape` other than `shape_type`
(defaults as in the Python signature, bullet.py lines 2439-2441). -/
structure CollisionShapeArgs where
  radius : ℚ := 1 / 2
  half_extents : List ℚ := [1, 1, 1]
  height : ℚ := 1
  filename : Option String := none
  mesh_scale : List ℚ := [1, 1, 1]
  plane_normal : List ℚ := [0, 0, 1]
  flags : ℤ := -1
  collision_frame_position : Option (List ℚ) := none
  collision_frame_orn : Option (List ℚ) := none
  deriving DecidableEq, Repr

/-- The base keyword arguments of `Bullet.create_collision_shape`
(bullet.py lines 2465-2469). -/
def create_collision_shape_base_kwargs (a : CollisionShapeArgs) : List (String × EVal) :=
  buildKwargs
    [("collisionFramePosition", a.collision_frame_position.map .vec),
     ("collisionFrameOrientation", a.collision_frame_orn.map .vec)]

/-- `Bullet.create_collision_shape` (bullet.py lines 2439-2482): dispatches on
`shape_type`; each recognized geometry kind issues exactly one
`createCollisionShape` engine call (the `GEOM_MESH` branch forwards
`fileName=filename` even when `filename` is `None`), any other value raises
`ValueError("Unknown collision shape type.")` locally. -/
def create_collision_shape (e : Engine) (shape_type : ℤ) (a : CollisionShapeArgs) :
    Except String (ℤ × List EngineCall) :=
  let kwargs := create_collision_shape_base_kwargs a
  if shape_type = GEOM_SPHERE then
    let kw := ("radius", EVal.num a.radius) :: kwargs
    .ok (e.createCollisionShape shape_type kw, [.createCollisionShape shape_type kw])
  else if shape_type = GEOM_BOX then
    let kw := ("halfExtents", EVal.vec a.half_extents) :: kwargs
    .ok (e.createCollisionShape shape_type kw, [.createCollisionShape shape_type kw])
  else if shape_type = GEOM_CAPSULE ∨ shape_type = GEOM_CYLINDER then
    let kw := ("radius", EVal.num a.radius) :: ("height", EVal.num a.height) :: kwargs
    .ok (e.createCollisionShape shape_type kw, [.createCollisionShape shape_type kw])
  else if shape_type = GEOM_PLANE then
    let kw := ("planeNormal", EVal.vec a.plane_normal) :: kwargs
    .ok (e.createCollisionShape shape_type kw, [.createCollisionShape shape_type kw])
  else if shape_type = GEOM_MESH then
    let kw := ("fileName", strOrNull a.filename) :: kwargs
    .ok (e.createCollisionShape shape_type kw, [.createCollisionShape shape_type kw])
  else
    .error "Unknown collision shape type."

/-- A `shape_type` value matches one of the six recognized geometry kinds. -/
def recognizedGeom (shape_type : ℤ) : Prop :=
  shape_type = GEOM_SPHERE ∨ shape_type = GEOM_BOX ∨ shape_type = GEOM_CAPSULE ∨
    shape_type = GEOM_CYLINDER ∨ shape_type = GEOM_PLANE ∨ shape_type = GEOM_MESH

instance (shape_type : ℤ) : Decidable (recognizedGeom shape_type) := by
  unfold recognizedGeom; infer_instance

/-! ## Claims -/

/-- Helper: a key occurs among the built keyword arguments of a
`(name, optional mapped value)` pair iff the key matches and the optional
parameter was supplied. -/
theorem exists_some_eq_map {α : Type} (o : Option α) (f : α → EVal) :
    (∃ v, some v = o.map f) ↔ o.isSome := by
  cases o <;> simp

/-- C1.  For every structured setter operation (`set_physics_properties`,
`change_dynamics`, `change_visual_shape`, `change_constraint`,
`start_logging`) and every subset of supplied optional parameters, the
keyword-argument set forwarded to the engine contains exactly the engine-side
names of the supplied parameters and nothing else: a name occurs among the
forwarded keyword arguments iff the corresponding parameter is present
(non-`None`). -/
theorem structured_setters_forward_exactly_supplied_params :
    (∀ (p : PhysicsParams) (n : String),
      n ∈ (set_physics_properties_kwargs p).map Prod.fst ↔
        (n = "fixedTimeStep" ∧ p.time_step.isSome) ∨
        (n = "numSolverIterations" ∧ p.num_solver_iterations.isSome) ∨
        (n = "useSplitImpulse" ∧ p.use_split_impulse.isSome) ∨
        (n = "splitImpulsePenetrationThreshold" ∧
          p.split_impulse_penetration_threshold.isSome) ∨
        (n = "numSubSteps" ∧ p.num_sub_steps.isSome) ∨
        (n = "collisionFilterMode" ∧ p.collision_filter_mode.isSome) ∨
        (n = "contactBreakingThreshold" ∧ p.contact_breaking_threshold.isSome) ∨
        (n = "maxNumCmdPer1ms" ∧ p.max_num_cmd_per_1ms.isSome) ∨
        (n = "enableFileCaching" ∧ p.enable_file_caching.isSome) ∨
        (n = "restitutionVelocityThreshold" ∧
          p.restitution_velocity_threshold.isSome) ∨
        (n = "erp" ∧ p.erp.isSome) ∨
        (n = "contactERP" ∧ p.contact_erp.isSome) ∨
        (n = "frictionERP" ∧ p.friction_erp.isSome) ∨
        (n = "enableConeFriction" ∧ p.enable_cone_friction.isSome) ∨
        (n = "deterministicOverlappingPairs" ∧
          p.deterministic_overlapping_pairs.isSome) ∨
        (n = "solverResidualThreshold" ∧ p.solver_residual_threshold.isSome)) ∧
    (∀ (p : DynamicsParams) (n : String),
      n ∈ (change_dynamics_kwargs p).map Prod.fst ↔
        (n = "mass" ∧ p.mass.isSome) ∨
        (n = "lateralFriction" ∧ p.lateral_friction.isSome) ∨
        (n = "spinningFriction" ∧ p.spinning_friction.isSome) ∨
        (n = "rollingFriction" ∧ p.rolling_friction.isSome) ∨
        (n = "restitution" ∧ p.restitution.isSome) ∨
        (n = "linearDamping" ∧ p.linear_damping.isSome) ∨
        (n = "angularDamping" ∧ p.angular_damping.isSome) ∨
        (n = "contactStiffness" ∧ p.contact_stiffness.isSome) ∨
        (n = "contactDamping" ∧ p.contact_damping.isSome) ∨
        (n = "frictionAnchor" ∧ p.friction_anchor.isSome) ∨
        (n = "localInertiaDiagonal" ∧ p.local_inertia_diagonal.isSome) ∨
        (n = "jointDamping" ∧ p.joint_damping.isSome)) ∧
    (∀ (p : VisualShapeParams) (n : String),
      n ∈ (change_visual_shape_kwargs p).map Prod.fst ↔
        (n = "shapeIndex" ∧ p.shape_id.isSome) ∨
        (n = "textureUniqueId" ∧ p.texture_id.isSome) ∨
        (n = "rgbaColor" ∧ p.rgba_color.isSome) ∨
        (n = "specularColor" ∧ p.specular_color.isSome)) ∧
    (∀ (p : ConstraintParams) (n : String),
      n ∈ (change_constraint_kwargs p).map Prod.fst ↔
        (n = "jointChildPivot" ∧ p.child_joint_pivot.isSome) ∨
        (n = "jointChildFrameOrientation" ∧ p.child_frame_orn.isSome) ∨
        (n = "maxForce" ∧ p.max_force.isSome) ∨
        (n = "gearRatio" ∧ p.gear_ratio_value.isSome) ∨
        (n = "gearAuxLink" ∧ p.gear_auxiliary_link.isSome) ∨
        (n = "relativePositionTarget" ∧ p.relative_position_target.isSome) ∨
        (n = "erp" ∧ p.erp.isSome)) ∧
    (∀ (p : LoggingParams) (n : String),
      n ∈ (start_logging_kwargs p).map Prod.fst ↔
        (n = "objectUniqueIds" ∧ p.object_unique_ids.isSome) ∨
        (n = "maxLogDof" ∧ p.max_log_dof.isSome) ∨
        (n = "bodyUniqueIdA" ∧ p.body_unique_id_A.isSome) ∨
        (n = "bodyUniqueIdB" ∧ p.body_unique_id_B.isSome) ∨
        (n = "linkIndexA" ∧ p.link_index_A.isSome) ∨
        (n = "linkIndexB" ∧ p.link_index_B.isSome) ∨
        (n = "deviceTypeFilter" ∧ p.device_type_filter.isSome) ∨
        (n = "logFlags" ∧ p.log_flags.isSome)) := by
  refine ⟨?_, ?_, ?_, ?_, ?_⟩ <;> intro p n <;>
    simp only [set_physics_properties_kwargs, change_dynamics_kwargs,
      change_visual_shape_kwargs, change_constraint_kwargs, start_logging_kwargs,
      mem_keys_buildKwargs, List.mem_cons, List.not_mem_nil, or_false,
      Prod.mk.injEq, exists_or, exists_and_left, exists_some_eq_map]

/-- C1 witness: with only `time_step` supplied, `fixedTimeStep` is forwarded. -/
theorem structured_setters_forward_exactly_supplied_params_witness :
    "fixedTimeStep" ∈ (set_physics_properties_kwargs { time_step := some 1 }).map Prod.fst :=
  ((structured_setters_forward_exactly_supplied_params.1 { time_step := some 1 }
    "fixedTimeStep").mpr (Or.inl ⟨rfl, rfl⟩))

/-- C2 counterexample: `set_joint_velocities` with a scalar joint id and
`max_force=None` issues four engine calls, not exactly one — the
`isinstance(joint_ids, int)` block and the `max_force is None` branches
(bullet.py lines 1704-1713) have no `return`/`else`, so the calls accumulate. -/
theorem set_joint_velocities_scalar_none_four_calls :
    (set_joint_velocities 0 (.int 0) (.num 1) none).length = 4 ∧
    (set_joint_velocities 0 (.int 0) (.num 1) none).length ≠ 1 :=
  ⟨rfl, by decide⟩

/-- C2 amended: not every adapter operation issues exactly one engine call.
`reset_base_position` always issues two (a base-pose read, then a pose reset);
`set_joint_velocities` issues four calls for a scalar joint id with
`max_force=None`, two when exactly one of {scalar id, `None` force} holds,
and exactly one only for a list of joint ids with a non-`None` `max_force`;
plain forwarding operations such as `set_physics_properties` issue exactly
one call. -/
theorem adapter_engine_call_counts :
    ∀ (e : Engine) (b : ℤ) (pos : List ℚ) (j : ℤ) (js : List ℤ) (v : PyVal)
      (f : PyVal) (pp : PhysicsParams),
    (reset_base_position e b pos).length = 2 ∧
    reset_base_position e b pos =
      [.getBasePositionAndOrientation b,
       .resetBasePositionAndOrientation b pos (e.getBasePositionAndOrientation b).2] ∧
    (set_joint_velocities b (.int j) v none).length = 4 ∧
    (set_joint_velocities b (.int j) v (some f)).length = 2 ∧
    (set_joint_velocities b (.list js) v none).length = 2 ∧
    set_joint_velocities b (.list js) v (some f) =
      [.setJointMotorControlArray b (.list js) VELOCITY_CONTROL v (some (some f))] ∧
    (set_physics_properties pp).length = 1 := by
  intro e b pos j js v f pp
  refine ⟨rfl, rfl, ?_, ?_, ?_, ?_, rfl⟩ <;>
    simp [set_joint_velocities]

/-- C2 witness: the amended call counts at concrete inputs. -/
theorem adapter_engine_call_counts_witness :
    (reset_base_position trivEngine 0 [0, 0, 0]).length = 2 ∧
    (set_joint_velocities 0 (.list [0, 1]) (.list [1, 1]) (some (.num 5))).length = 1 :=
  ⟨(adapter_engine_call_counts trivEngine 0 [0, 0, 0] 0 [0, 1] (.list [1, 1])
      (.num 5) {}).1,
   by rw [(adapter_engine_call_counts trivEngine 0 [0, 0, 0] 0 [0, 1] (.list [1, 1])
      (.num 5) {}).2.2.2.2.2.1]; rfl⟩

/-- C3.  Dual-arity contract of the batch accessors: a scalar identifier
returns the single structured value that a one-element list returns as its
only element, and a list of identifiers returns one structured value per
identifier, in input order. -/
theorem batch_accessors_dual_arity :
    ∀ (e : Engine) (b : ℤ),
    (∀ i : ℤ, ∃ v, (get_link_world_positions e b (.int i)).1 = .one v ∧
        (get_link_world_positions e b (.list [i])).1 = .many [v]) ∧
    (∀ is : List ℤ, (get_link_world_positions e b (.list is)).1 =
        .many (is.map fun j => (link_world_position_one e b j).1)) ∧
    (∀ i : ℤ, ∃ v, (get_link_world_orientations e b (.int i)).1 = .one v ∧
        (get_link_world_orientations e b (.list [i])).1 = .many [v]) ∧
    (∀ is : List ℤ, (get_link_world_orientations e b (.list is)).1 =
        .many (is.map fun j => (link_world_orn_one e b j).1)) ∧
    (∀ i : ℤ, ∃ v, (get_link_world_linear_velocities e b (.int i)).1 = .one v ∧
        (get_link_world_linear_velocities e b (.list [i])).1 = .many [v]) ∧
    (∀ i : ℤ, ∃ x, (get_joint_positions e b (.int i)).1 = .one x ∧
        (get_joint_positions e b (.list [i])).1 = .many [x]) ∧
    (∀ is : List ℤ, (get_joint_positions e b (.list is)).1 =
        .many (is.map fun j => (e.getJointState b j).position)) := by
  intro e b
  refine ⟨fun i => ⟨_, rfl, rfl⟩, fun is => rfl,
          fun i => ⟨_, rfl, rfl⟩, fun is => rfl,
          fun i => ⟨_, rfl, rfl⟩, fun i => ⟨_, rfl, rfl⟩, fun is => ?_⟩
  simp [get_joint_positions, Engine.getJointStates, List.map_map, Function.comp]

/-- C3 witness: scalar call and singleton-list call agree at a concrete
input. -/
theorem batch_accessors_dual_arity_witness :
    ∃ v, (get_link_world_positions trivEngine 0 (.int 3)).1 = .one v ∧
      (get_link_world_positions trivEngine 0 (.list [3])).1 = .many [v] :=
  (batch_accessors_dual_arity trivEngine 0).1 3

/-- C4.  Radians-only public interface (for any nonzero degrees-per-radian
constant `c`, in particular `180/π`): `reset_debug_visualizer` forwards
`rad2deg` of its yaw and pitch, `get_debug_visualizer` returns `deg2rad` of
the engine's yaw and pitch, `compute_view_matrix_from_ypr` forwards `rad2deg`
of yaw, pitch and roll, and `deg2rad ∘ rad2deg` is the identity — so a value
written in radians and round-tripped by the engine reads back unchanged,
never degrees-scaled. -/
theorem radian_degree_boundary_conversion (c : ℚ) (hc : c ≠ 0) :
    (∀ (distance yaw pitch : ℚ) (target : List ℚ),
      reset_debug_visualizer c distance yaw pitch target =
        [.resetDebugVisualizerCamera distance (rad2deg c yaw) (rad2deg c pitch) target]) ∧
    (∀ e : Engine,
      (get_debug_visualizer c e).1.yaw = deg2rad c e.getDebugVisualizerCamera.yaw ∧
      (get_debug_visualizer c e).1.pitch = deg2rad c e.getDebugVisualizerCamera.pitch) ∧
    (∀ (e : Engine) (target : List ℚ) (distance yaw pitch roll : ℚ) (up : ℤ),
      (compute_view_matrix_from_ypr c e target distance yaw pitch roll up).2 =
        [.computeViewMatrixFromYawPitchRoll target distance (rad2deg c yaw)
          (rad2deg c pitch) (rad2deg c roll) up]) ∧
    (∀ x : ℚ, deg2rad c (rad2deg c x) = x) := by
  refine ⟨fun _ _ _ _ => rfl, fun _ => ⟨rfl, rfl⟩, fun _ _ _ _ _ _ _ => rfl, fun x => ?_⟩
  rw [rad2deg, deg2rad, mul_comm, mul_div_assoc, div_self hc, mul_one]

/-- C4 witness: with the constant instantiated at `57` and yaw `2` radians,
writing then reading back yields `2`, not a degrees-scaled value. -/
theorem radian_degree_boundary_conversion_witness :
    (57 : ℚ) ≠ 0 ∧ deg2rad 57 (rad2deg 57 2) = 2 :=
  ⟨by norm_num, (radian_degree_boundary_conversion 57 (by norm_num)).2.2.2 2⟩

/-- C5.  Every matrix-returning operation converts the engine's flat
16-element row-major list by reshape-then-transpose, so the transpose of the
returned 4×4 array equals the flat list reshaped row-major into 4×4. -/
theorem matrix_reshape_transpose_convention :
    ∀ (c : ℚ) (e : Engine),
    (∀ eye target up : List ℚ,
      (compute_view_matrix e eye target up).1 =
        transpose44 (reshape44 (e.computeViewMatrix eye target up)) ∧
      transpose44 (compute_view_matrix e eye target up).1 =
        reshape44 (e.computeViewMatrix eye target up)) ∧
    (∀ (target : List ℚ) (distance yaw pitch roll : ℚ) (up : ℤ),
      (compute_view_matrix_from_ypr c e target distance yaw pitch roll up).1 =
        transpose44 (reshape44 (e.computeViewMatrixFromYawPitchRoll target distance
          (rad2deg c yaw) (rad2deg c pitch) (rad2deg c roll) up)) ∧
      transpose44 (compute_view_matrix_from_ypr c e target distance yaw pitch roll up).1 =
        reshape44 (e.computeViewMatrixFromYawPitchRoll target distance
          (rad2deg c yaw) (rad2deg c pitch) (rad2deg c roll) up)) ∧
    (∀ left right bottom top near far : ℚ,
      (compute_projection_matrix e left right bottom top near far).1 =
        transpose44 (reshape44 (e.computeProjectionMatrix left right bottom top near far)) ∧
      transpose44 (compute_projection_matrix e left right bottom top near far).1 =
        reshape44 (e.computeProjectionMatrix left right bottom top near far)) ∧
    (∀ fov aspect near far : ℚ,
      (compute_projection_matrix_fov e fov aspect near far).1 =
        transpose44 (reshape44 (e.computeProjectionMatrixFOV fov aspect near far)) ∧
      transpose44 (compute_projection_matrix_fov e fov aspect near far).1 =
        reshape44 (e.computeProjectionMatrixFOV fov aspect near far)) ∧
    ((get_debug_visualizer c e).1.view =
        transpose44 (reshape44 e.getDebugVisualizerCamera.view) ∧
      transpose44 (get_debug_visualizer c e).1.view =
        reshape44 e.getDebugVisualizerCamera.view ∧
      (get_debug_visualizer c e).1.proj =
        transpose44 (reshape44 e.getDebugVisualizerCamera.proj) ∧
      transpose44 (get_debug_visualizer c e).1.proj =
        reshape44 e.getDebugVisualizerCamera.proj) :=
  fun _ _e =>
    ⟨fun _ _ _ => ⟨rfl, transpose44_transpose44_reshape44 _⟩,
     fun _ _ _ _ _ _ => ⟨rfl, transpose44_transpose44_reshape44 _⟩,
     fun _ _ _ _ _ _ => ⟨rfl, transpose44_transpose44_reshape44 _⟩,
     fun _ _ _ _ => ⟨rfl, transpose44_transpose44_reshape44 _⟩,
     rfl, transpose44_transpose44_reshape44 _, rfl,
     transpose44_transpose44_reshape44 _⟩

/-- C5 witness: the convention at a concrete engine and input. -/
theorem matrix_reshape_transpose_convention_witness :
    transpose44 (compute_view_matrix trivEngine [0, 0, 1] [0, 0, 0] [0, 1, 0]).1 =
      reshape44 (trivEngine.computeViewMatrix [0, 0, 1] [0, 0, 0] [0, 1, 0]) :=
  ((matrix_reshape_transpose_convention 57 trivEngine).1 [0, 0, 1] [0, 0, 0] [0, 1, 0]).2

/-- C7.  Scalar-first to scalar-last quaternion reordering round-trips to the
original four components, and `load_urdf` / `create_body` forward
`convertFrom` of a structured quaternion argument. -/
theorem quaternion_order_round_trip :
    (∀ q : PyQuaternion, convertTo (convertFrom q) = q) ∧
    (∀ (e : Engine) (fn : String) (pos : PosArg) (q : PyQuaternion)
       (umc ufb fl : ℤ) (sc : ℚ),
      (load_urdf e fn pos (.quat q) umc ufb fl sc).2 =
        [.loadURDF fn (marshal_position pos) (some (convertFrom q)) umc ufb fl sc]) ∧
    (∀ (e : Engine) (vs cs : ℤ) (m : ℚ) (pos : PosArg) (q : PyQuaternion),
      (create_body e vs cs m pos (.quat q)).2 =
        [.createMultiBody m cs vs (marshal_position pos) (some (convertFrom q))]) :=
  ⟨fun _ => rfl, fun _ _ _ _ _ _ _ _ => rfl, fun _ _ _ _ _ _ => rfl⟩

/-- C7 witness: round trip at a concrete quaternion. -/
theorem quaternion_order_round_trip_witness :
    convertTo (convertFrom ⟨1, 2, 3, 4⟩) = (⟨1, 2, 3, 4⟩ : PyQuaternion) :=
  quaternion_order_round_trip.1 ⟨1, 2, 3, 4⟩

/-- C6.  Shape creation raises locally iff the geometry kind is unrecognized:
for each of the six recognized kinds both operations succeed with exactly one
forwarded engine call, and for any other `shape_type` they fail with the
local `ValueError` message — the only validation the adapter performs. -/
theorem shape_creation_validates_geom_kind_only :
    ∀ (e : Engine) (st : ℤ) (va : VisualShapeArgs) (ca : CollisionShapeArgs),
    ((∃ r, create_visual_shape e st va = .ok r) ↔ recognizedGeom st) ∧
    (create_visual_shape e st va = .error "Unknown visual shape type." ↔
      ¬ recognizedGeom st) ∧
    ((∃ kw, create_visual_shape e st va =
        .ok (e.createVisualShape st kw, [.createVisualShape st kw])) ∨
      create_visual_shape e st va = .error "Unknown visual shape type.") ∧
    ((∃ r, create_collision_shape e st ca = .ok r) ↔ recognizedGeom st) ∧
    (create_collision_shape e st ca = .error "Unknown collision shape type." ↔
      ¬ recognizedGeom st) ∧
    ((∃ kw, create_collision_shape e st ca =
        .ok (e.createCollisionShape st kw, [.createCollisionShape st kw])) ∨
      create_collision_shape e st ca = .error "Unknown collision shape type.") := by
  intro e st va ca
  refine ⟨?_, ?_, ?_, ?_, ?_, ?_⟩ <;>
    · simp only [create_visual_shape, create_collision_shape]
      split_ifs <;> simp_all [recognizedGeom] <;> tauto

/-- C6 witness: a sphere is created through one engine call, and the
unrecognized kind `0` raises the local error. -/
theorem shape_creation_validates_geom_kind_only_witness :
    (∃ r, create_visual_shape trivEngine GEOM_SPHERE {} = .ok r) ∧
    create_collision_shape trivEngine 0 {} = .error "Unknown collision shape type." :=
  ⟨(shape_creation_validates_geom_kind_only trivEngine GEOM_SPHERE {} {}).1.mpr
      (Or.inl rfl),
   (shape_creation_validates_geom_kind_only trivEngine 0 {} {}).2.2.2.2.1.mpr
      (by decide)⟩

/-- C8.  `start_logging` always returns `None` even though it issues the
engine's `startStateLogging` call (whose unique-id result it discards: the
Python body has no `return` statement). -/
theorem start_logging_returns_none :
    ∀ (e : Engine) (lt : ℤ) (fn : String) (p : LoggingParams),
    (start_logging e lt fn p).1 = none ∧
    (start_logging e lt fn p).2 =
      [.startStateLogging lt fn (start_logging_kwargs p)] :=
  fun _ _ _ _ => ⟨rfl, rfl⟩

/-- C8 witness: at a concrete input the result is `None` while the engine
call is issued. -/
theorem start_logging_returns_none_witness :
    (start_logging trivEngine 1 "log.mp4" {}).1 = none :=
  (start_logging_returns_none trivEngine 1 "log.mp4" {}).1

/-- C9.  `load` with a state that is neither an `int` nor a `str` matches no
`isinstance` branch: it issues no engine call and raises no error, returning
silently; the `int` and `str` branches each issue their single restore
call. -/
theorem load_ignores_non_int_str_state :
    load .other = .ok [] ∧
    (∀ i : ℤ, load (.int i) = .ok [.restoreStateId i]) ∧
    (∀ s : String, load (.str s) = .ok [.restoreStateFile s]) :=
  ⟨rfl, fun _ => rfl, fun _ => rfl⟩

/-- The engine calls made for one link id by `get_link_world_positions`:
a base-state read for `-1`, a `getLinkState` query otherwise. -/
theorem link_world_position_one_trace (e : Engine) (b j : ℤ) :
    (link_world_position_one e b j).2 =
      if j = -1 then [EngineCall.getBasePositionAndOrientation b]
      else [.getLinkState b j false] := by
  unfold link_world_position_one get_base_position get_base_pose
  split <;> rfl

/-- The engine calls made for one link id by `get_link_world_orientations`. -/
theorem link_world_orn_one_trace (e : Engine) (b j : ℤ) :
    (link_world_orn_one e b j).2 =
      if j = -1 then [EngineCall.getBasePositionAndOrientation b]
      else [.getLinkState b j false] := by
  unfold link_world_orn_one get_base_orientation get_base_pose
  split <;> rfl

/-- The engine calls made for one link id by
`get_link_world_linear_velocities`. -/
theorem link_world_lin_vel_one_trace (e : Engine) (b j : ℤ) :
    (link_world_lin_vel_one e b j).2 =
      if j = -1 then [EngineCall.getBaseVelocity b]
      else [.getLinkState b j true] := by
  unfold link_world_lin_vel_one get_base_linear_velocity get_base_velocity
  split <;> rfl

/-- C10.  The link-state batch accessors treat link id `-1` specially: alone
or inside a list, `-1` is answered by the base-state engine call
(`getBasePositionAndOrientation` or `getBaseVelocity`) — the engine's
`getLinkState` is never invoked with link id `-1`. -/
theorem link_minus_one_uses_base_state :
    ∀ (e : Engine) (b : ℤ),
    (get_link_world_positions e b (.int (-1)) =
      (.one (e.getBasePositionAndOrientation b).1, [.getBasePositionAndOrientation b])) ∧
    (get_link_world_orientations e b (.int (-1)) =
      (.one (e.getBasePositionAndOrientation b).2, [.getBasePositionAndOrientation b])) ∧
    (get_link_world_linear_velocities e b (.int (-1)) =
      (.one (e.getBaseVelocity b).1, [.getBaseVelocity b])) ∧
    (∀ is : List ℤ, (get_link_world_positions e b (.list is)).2 =
      is.flatMap fun j => if j = -1 then [.getBasePositionAndOrientation b]
        else [.getLinkState b j false]) ∧
    (∀ is : List ℤ, (get_link_world_orientations e b (.list is)).2 =
      is.flatMap fun j => if j = -1 then [.getBasePositionAndOrientation b]
        else [.getLinkState b j false]) ∧
    (∀ is : List ℤ, (get_link_world_linear_velocities e b (.list is)).2 =
      is.flatMap fun j => if j = -1 then [.getBaseVelocity b]
        else [.getLinkState b j true]) ∧
    (∀ (is : List ℤ) (b' j : ℤ) (cv : Bool), j = -1 →
      EngineCall.getLinkState b' j cv ∉ (get_link_world_positions e b (.list is)).2 ∧
      EngineCall.getLinkState b' j cv ∉ (get_link_world_orientations e b (.list is)).2 ∧
      EngineCall.getLinkState b' j cv ∉
        (get_link_world_linear_velocities e b (.list is)).2) := by
  intro e b
  refine ⟨rfl, rfl, rfl, fun is => ?_, fun is => ?_, fun is => ?_,
          fun is b' j cv hj => ⟨?_, ?_, ?_⟩⟩
  · simp only [get_link_world_positions, link_world_position_one_trace]
  · simp only [get_link_world_orientations, link_world_orn_one_trace]
  · simp only [get_link_world_linear_velocities, link_world_lin_vel_one_trace]
  · subst hj
    simp only [get_link_world_positions, List.mem_flatMap,
      link_world_position_one_trace]
    rintro ⟨a, -, ha⟩
    split at ha <;> simp_all
  · subst hj
    simp only [get_link_world_orientations, List.mem_flatMap,
      link_world_orn_one_trace]
    rintro ⟨a, -, ha⟩
    split at ha <;> simp_all
  · subst hj
    simp only [get_link_world_linear_velocities, List.mem_flatMap,
      link_world_lin_vel_one_trace]
    rintro ⟨a, -, ha⟩
    split at ha <;> simp_all

/-- C10 witness: link id `-1` in a list is answered from the base state. -/
theorem link_minus_one_uses_base_state_witness :
    (get_link_world_positions trivEngine 0 (.list [-1, 2])).2 =
      [.getBasePositionAndOrientation 0, .getLinkState 0 2 false] := by
  rw [(link_minus_one_uses_base_state trivEngine 0).2.2.2.1 [-1, 2]]
  rfl
